import Mathlib

/-!
Shallow embedding of the Hyperliquid MCP server (src/src/index.ts) and proofs
about its request handlers.

Modelling conventions:
- JavaScript string arguments that may be absent are `Option String`; the
  JS truthiness test `!x` on such a value is `strFalsy` (absent or empty).
- Numbers that may be absent are `Option Rat`; `Number(undefined)` is `NaN`,
  which is falsy, so `numFalsy` treats `none` and `0` alike, exactly as the
  code's `!size` and `!price` checks do.  Numeric values are embedded as
  rationals; all the arithmetic the claims exercise (products of decimal
  literals) is exact in both models.
- The `strategies` object is an insertion-ordered association list with the
  JS assignment semantics: writing to an existing key updates the entry in
  place, writing to a fresh key appends (`objSet`).
- The external Hyperliquid client is not reimplemented: each handler takes
  the outcomes of its external calls as explicit `Except String` oracles and
  additionally returns the ordered list of client calls it performed, so
  that claims about when the client is contacted are statable.
- A thrown `McpError` is an `Except.error` carrying the `ErrorCode` and the
  message; the SDK sets the JS `message` property of a thrown `McpError` to
  the code-prefixed text, which `McpErr.jsMessage` reproduces, because the
  `catch` blocks of the handlers read that property when re-wrapping.
-/

namespace HL

/-- MCP SDK error codes used by the server. -/
inductive ErrorCode
  | invalidRequest
  | methodNotFound
  | invalidParams
  | internalError
  deriving DecidableEq

/-- Numeric value of each MCP error code (JSON-RPC). -/
def ErrorCode.num : ErrorCode → Int
  | .invalidRequest => -32600
  | .methodNotFound => -32601
  | .invalidParams => -32602
  | .internalError => -32603

/-- A thrown `McpError`: code plus the message passed to the constructor. -/
structure McpErr where
  code : ErrorCode
  message : String
  deriving DecidableEq

/-- The JS `message` property of a thrown `McpError`; the MCP SDK prefixes
the numeric code, and the handlers' catch blocks read this property. -/
def McpErr.jsMessage (e : McpErr) : String :=
  "MCP error " ++ toString e.code.num ++ ": " ++ e.message

/-- JS truthiness test for a possibly-absent string: `!x` is true when the
value is `undefined` or the empty string. -/
def strFalsy : Option String → Bool
  | none => true
  | some s => s == ""

/-- JS truthiness test for a possibly-absent number: `!x` is true when the
value is `NaN` (modelled by `none`) or `0`. -/
def numFalsy : Option Rat → Bool
  | none => true
  | some q => q == 0

/-- Lookup in a JS object with string keys (association list model). -/
def objGet {α : Type} (m : List (String × α)) (k : String) : Option α :=
  match m with
  | [] => none
  | (k1, v) :: rest => if k1 = k then some v else objGet rest k

/-- JS object assignment `m[k] = v`: an existing key is updated in place
(keeping its insertion position); a fresh key is appended. -/
def objSet {α : Type} (m : List (String × α)) (k : String) (v : α) :
    List (String × α) :=
  match m with
  | [] => [(k, v)]
  | (k1, v1) :: rest =>
      if k1 = k then (k, v) :: rest else (k1, v1) :: objSet rest k v

/-- `interface Strategy` of index.ts; `config` is an opaque blob. -/
structure Strategy where
  id : String
  name : String
  description : String
  config : String
  active : Bool
  deriving DecidableEq

/-- `interface UserCredentials` of index.ts. -/
structure UserCredentials where
  privateKey : Option String
  walletAddress : Option String
  testnet : Bool
  vaultAddress : Option String
  deriving DecidableEq

/-- Initial credentials: `testnet: true`, everything else absent. -/
def initialCredentials : UserCredentials :=
  { privateKey := none, walletAddress := none, testnet := true,
    vaultAddress := none }

/-- The server's mutable module state: credentials, the strategies object,
and whether `hyperliquidClient` is non-null. -/
structure ServerState where
  userCredentials : UserCredentials
  strategies : List (String × Strategy)
  hyperliquidClient : Bool
  deriving DecidableEq

/-- `initializeClient()`: returns null when both credential fields are
falsy; otherwise constructs the client, returning null when the constructor
throws (the external constructor outcome is the `ctorOk` flag). -/
def initializeClient (c : UserCredentials) (ctorOk : Bool) : Bool :=
  if strFalsy c.privateKey && strFalsy c.walletAddress then false else ctorOk

/-- The lazy `if (!hyperliquidClient) hyperliquidClient = initializeClient()`
pattern shared by the handlers. -/
def ensureClient (st : ServerState) (ctorOk : Bool) : ServerState :=
  if st.hyperliquidClient then st
  else { st with hyperliquidClient := initializeClient st.userCredentials ctorOk }

/-- Strategy id generation of `create_strategy`:
`strategy-` + `Date.now()` + `-` + `Math.floor(Math.random() * 1000)`. -/
def mkStrategyId (t r : Nat) : String :=
  "strategy-" ++ toString t ++ "-" ++ toString r

/-- Arguments of the `create_strategy` tool. -/
structure CreateStrategyArgs where
  name : Option String
  description : Option String
  config : Option String
  deriving DecidableEq

/-- Handler of the `create_strategy` tool.  `t` is the `Date.now()` value
and `r` the `Math.floor(Math.random() * 1000)` draw at this call. -/
def create_strategy (st : ServerState) (t r : Nat) (a : CreateStrategyArgs) :
    Except McpErr String × ServerState :=
  if strFalsy a.name || strFalsy a.description || strFalsy a.config then
    (.error ⟨.invalidParams, "Name, description, and config are required"⟩, st)
  else
    let id := mkStrategyId t r
    let strat : Strategy :=
      { id := id, name := a.name.getD "", description := a.description.getD "",
        config := a.config.getD "", active := false }
    (.ok ("Created strategy " ++ a.name.getD "" ++ " with ID: " ++ id),
      { st with strategies := objSet st.strategies id strat })

/-- Arguments of the `activate_strategy` tool. -/
structure ActivateStrategyArgs where
  strategyId : Option String
  active : Option Bool
  deriving DecidableEq

/-- Handler of the `activate_strategy` tool.  The code first defaults
`active` to false, so its `active === undefined` disjunct is always false
and only the `!strategyId` test can fire. -/
def activate_strategy (st : ServerState) (a : ActivateStrategyArgs) :
    Except McpErr String × ServerState :=
  let active := a.active.getD false
  if strFalsy a.strategyId then
    (.error ⟨.invalidParams, "StrategyId and active status are required"⟩, st)
  else
    let sid := a.strategyId.getD ""
    match objGet st.strategies sid with
    | none =>
        (.error ⟨.invalidRequest, "Strategy " ++ sid ++ " not found"⟩, st)
    | some strat =>
        (.ok ("Strategy " ++ sid ++
            (if active then " activated" else " deactivated")),
          { st with strategies :=
              objSet st.strategies sid { strat with active := active } })

/-- Arguments of the `authenticate` tool. -/
structure AuthArgs where
  privateKey : Option String
  walletAddress : Option String
  testnet : Option Bool
  vaultAddress : Option String
  deriving DecidableEq

/-- Hex-prefix normalization applied before the `ethers.Wallet` check. -/
def normalizeKey (s : String) : String :=
  if s.startsWith ("0x") then s else "0x" ++ s

/-- Handler of the `authenticate` tool.  `validKey` is the external
`ethers.Wallet` constructor (true = parses), `ctorOk` the external client
constructor outcome. -/
def authenticate (st : ServerState) (validKey : String → Bool) (ctorOk : Bool)
    (a : AuthArgs) : Except McpErr String × ServerState :=
  let testnet := a.testnet.getD true
  if strFalsy a.privateKey && strFalsy a.walletAddress then
    (.error ⟨.invalidParams,
        "Either privateKey or walletAddress must be provided"⟩, st)
  else if !(strFalsy a.privateKey) && !(validKey (normalizeKey (a.privateKey.getD ""))) then
    (.error ⟨.invalidParams, "Invalid private key format"⟩, st)
  else
    let creds : UserCredentials :=
      { privateKey := a.privateKey, walletAddress := a.walletAddress,
        testnet := testnet, vaultAddress := a.vaultAddress }
    let client := initializeClient creds ctorOk
    let st1 : ServerState :=
      { st with userCredentials := creds, hyperliquidClient := client }
    if !client then
      (.error ⟨.internalError, "Failed to initialize Hyperliquid client"⟩, st1)
    else
      (.ok ("Successfully authenticated with Hyperliquid " ++
          (if testnet then "testnet" else "mainnet")), st1)

/-- A resource descriptor as returned by the ListResources handler. -/
structure Resource where
  uri : String
  mimeType : String
  name : String
  description : String
  deriving DecidableEq

/-- The descriptor built for one strategies-object entry. -/
def strategyResource (p : String × Strategy) : Resource :=
  { uri := "hyperliquid://strategy/" ++ p.1, mimeType := "application/json",
    name := p.2.name,
    description := "Trading strategy: " ++ p.2.description }

/-- ListResources handler: the account resource only when a credential
field is truthy, then one descriptor per strategies-object entry. -/
def listResources (st : ServerState) : List Resource :=
  (if !(strFalsy st.userCredentials.privateKey) ||
      !(strFalsy st.userCredentials.walletAddress) then
    [{ uri := "hyperliquid://account", mimeType := "application/json",
       name := "Hyperliquid Account",
       description := "Current account information from Hyperliquid" }]
  else []) ++ st.strategies.map strategyResource

/-- A raw spot balance as returned by the external spot-state fetch;
`total` is the parsed `balance.total`. -/
structure SpotBalance where
  coin : String
  total : Rat
  deriving DecidableEq

/-- A spot balance after the handler adds `price` and `usdValue`. -/
structure EnrichedBalance where
  coin : String
  total : Rat
  price : Rat
  usdValue : Rat
  deriving DecidableEq

/-- One spot asset context; `markPx` is the parsed mark price. -/
structure AssetCtx where
  coin : String
  markPx : Rat
  deriving DecidableEq

/-- The `priceMap` object built by the `forEach` over the asset contexts
(later entries for the same coin overwrite earlier ones). -/
def buildPriceMap (ctxs : List AssetCtx) : String → Option Rat :=
  ctxs.foldl (fun m ctx => fun c => if c = ctx.coin then some ctx.markPx else m c)
    (fun _ => none)

/-- The `if (!priceMap[USDC-SPOT] || priceMap[USDC-SPOT] === 0)` defaulting
step: an absent or zero stable-coin entry is set to 1.0. -/
def ensureUsdcPrice (m : String → Option Rat) : String → Option Rat :=
  match m ("USDC-SPOT") with
  | none => fun c => if c = "USDC-SPOT" then some 1 else m c
  | some p =>
      if p = 0 then (fun c => if c = "USDC-SPOT" then some 1 else m c) else m

/-- Per-balance enrichment: `price = priceMap[coin] || 0`,
`usdValue = total * price`, other fields spread through. -/
def enrichBalance (m : String → Option Rat) (b : SpotBalance) : EnrichedBalance :=
  let price := (m b.coin).getD 0
  { coin := b.coin, total := b.total, price := price,
    usdValue := b.total * price }

/-- The `spotState.balances = spotState.balances.map(...)` step. -/
def enrichBalances (ctxs : List AssetCtx) (bs : List SpotBalance) :
    List EnrichedBalance :=
  bs.map (enrichBalance (ensureUsdcPrice (buildPriceMap ctxs)))

/-- The spot section of the assembled account info: `null` when the spot
fetch threw, the raw balances when the context fetch threw or the balances
list is empty, the enriched balances otherwise. -/
inductive SpotSection
  | null
  | raw (balances : List SpotBalance)
  | enriched (balances : List EnrichedBalance)
  deriving DecidableEq

/-- The assembled `accountInfo` object (wallet-address branch);
`perpetuals` is the opaque clearinghouse-state blob. -/
structure AccountInfo where
  perpetuals : String
  spot : SpotSection
  network : String
  deriving DecidableEq

/-- Outcomes of the external calls the account read may perform. -/
structure AccountOracle where
  connect : Except String Unit
  perp : Except String String
  spot : Except String (List SpotBalance)
  ctxs : Except String (List AssetCtx)

/-- The account branch of the ReadResource handler.  The result payload is
`none` when `userCredentials.walletAddress` is falsy (the `accountInfo`
object stays empty).  The outer try/catch wraps any failure of `connect`
or of the perpetuals fetch into `InternalError`; only the spot section has
its own try/catch, which swallows the error and leaves `spotState` as it
was when the throw happened. -/
def readAccountResource (st : ServerState) (ctorOk : Bool) (o : AccountOracle) :
    Except McpErr (Option AccountInfo) × ServerState :=
  let st1 := ensureClient st ctorOk
  if !st1.hyperliquidClient then
    (.error ⟨.invalidRequest,
        "No credentials provided. Please authenticate first."⟩, st1)
  else
    match o.connect with
    | .error msg =>
        (.error ⟨.internalError,
            "Failed to fetch account information: " ++ msg⟩, st1)
    | .ok _ =>
        if strFalsy st1.userCredentials.walletAddress then (.ok none, st1)
        else
          match o.perp with
          | .error msg =>
              (.error ⟨.internalError,
                  "Failed to fetch account information: " ++ msg⟩, st1)
          | .ok perpState =>
              let spotSection :=
                match o.spot with
                | .error _ => SpotSection.null
                | .ok balances =>
                    if balances.isEmpty then SpotSection.raw balances
                    else
                      match o.ctxs with
                      | .error _ => SpotSection.raw balances
                      | .ok ctxs =>
                          SpotSection.enriched (enrichBalances ctxs balances)
              (.ok (some
                  { perpetuals := perpState, spot := spotSection,
                    network :=
                      if st1.userCredentials.testnet then "testnet"
                      else "mainnet" }), st1)

/-- The strategy resource URI base. -/
def strategyUriBase : String := "hyperliquid://strategy/"

/-- JS `String.prototype.startsWith` over the character sequence. -/
def jsStartsWith (s p : String) : Bool := s.data.take p.data.length == p.data

/-- The `uri.replace(base, "")` step: under the startsWith guard the first
occurrence of the base is its leading occurrence, so the replace removes
exactly the leading base. -/
def stripStrategyBase (uri : String) : String :=
  String.mk (uri.data.drop strategyUriBase.data.length)

/-- Payload of a successful ReadResource call: the JSON-serialized account
info or the JSON-serialized strategy record. -/
inductive ResourceContent
  | accountJson (info : Option AccountInfo)
  | strategyJson (s : Strategy)
  deriving DecidableEq

/-- The full ReadResource handler. -/
def readResource (st : ServerState) (ctorOk : Bool) (o : AccountOracle)
    (uri : String) : Except McpErr ResourceContent × ServerState :=
  if uri = "hyperliquid://account" then
    match readAccountResource st ctorOk o with
    | (.error e, st1) => (.error e, st1)
    | (.ok info, st1) => (.ok (.accountJson info), st1)
  else if jsStartsWith uri strategyUriBase then
    let sid := stripStrategyBase uri
    match objGet st.strategies sid with
    | none =>
        (.error ⟨.invalidRequest, "Strategy " ++ sid ++ " not found"⟩, st)
    | some s => (.ok (.strategyJson s), st)
  else
    (.error ⟨.invalidRequest, "Resource not found: " ++ uri⟩, st)

/-- Arguments of the `place_order` tool after the handler's coercions:
`size` and `price` are `Number(...)` results (`none` = `NaN` / absent). -/
structure PlaceOrderArgs where
  symbol : Option String
  side : Option String
  size : Option Rat
  price : Option Rat
  orderType : Option String
  reduceOnly : Option Bool
  deriving DecidableEq

/-- The `order_type` field of the prepared order request. -/
inductive OrderKind
  | limitGtc (px : Rat)
  | market
  deriving DecidableEq

/-- The prepared order request handed to `exchange.placeOrder`. -/
structure OrderRequest where
  coin : String
  is_buy : Bool
  sz : Rat
  reduce_only : Bool
  order_type : OrderKind
  deriving DecidableEq

/-- One call against the external exchange client. -/
inductive ClientCall
  | connect
  | placeOrder (req : OrderRequest)
  deriving DecidableEq

/-- Outcomes of the external calls `place_order` may perform. -/
structure ExchangeOracle where
  connect : Except String Unit
  placeOrder : Except String String

/-- Handler of the `place_order` tool.  Returns the result, the state, and
the ordered list of external client calls performed.  The price check for
limit orders sits inside the try block after `connect()`; the `McpError`
it throws is caught by the handler's own catch, which re-wraps the thrown
error's JS message into an `InternalError`. -/
def place_order (st : ServerState) (ctorOk : Bool) (o : ExchangeOracle)
    (a : PlaceOrderArgs) : Except McpErr String × ServerState × List ClientCall :=
  if strFalsy a.symbol || strFalsy a.side || numFalsy a.size ||
      strFalsy a.orderType then
    (.error ⟨.invalidParams, "Symbol, side, size, and orderType are required"⟩,
      st, [])
  else
    let st1 := ensureClient st ctorOk
    if !st1.hyperliquidClient then
      (.error ⟨.invalidRequest,
          "No credentials provided. Please authenticate first."⟩, st1, [])
    else if strFalsy st1.userCredentials.privateKey then
      (.error ⟨.invalidRequest,
          "Private key is required for trading operations"⟩, st1, [])
    else
      match o.connect with
      | .error msg =>
          (.error ⟨.internalError, "Failed to place order: " ++ msg⟩, st1,
            [.connect])
      | .ok _ =>
          if a.orderType == some "limit" then
            if numFalsy a.price then
              (.error ⟨.internalError, "Failed to place order: " ++
                  McpErr.jsMessage
                    ⟨.invalidParams, "Price is required for limit orders"⟩⟩,
                st1, [.connect])
            else
              let req : OrderRequest :=
                { coin := a.symbol.getD "", is_buy := a.side == some "buy",
                  sz := a.size.getD 0, reduce_only := a.reduceOnly.getD false,
                  order_type := .limitGtc (a.price.getD 0) }
              match o.placeOrder with
              | .error msg =>
                  (.error ⟨.internalError, "Failed to place order: " ++ msg⟩,
                    st1, [.connect, .placeOrder req])
              | .ok res => (.ok res, st1, [.connect, .placeOrder req])
          else
            let req : OrderRequest :=
              { coin := a.symbol.getD "", is_buy := a.side == some "buy",
                sz := a.size.getD 0, reduce_only := a.reduceOnly.getD false,
                order_type := .market }
            match o.placeOrder with
            | .error msg =>
                (.error ⟨.internalError, "Failed to place order: " ++ msg⟩,
                  st1, [.connect, .placeOrder req])
            | .ok res => (.ok res, st1, [.connect, .placeOrder req])

/-- A concrete authenticated state used by the concrete theorems: a signing
key and an address are stored and the client is constructed. -/
def stAuthed : ServerState :=
  { userCredentials :=
      { privateKey := some "0xabc", walletAddress := some "0xaddr",
        testnet := true, vaultAddress := none },
    strategies := [], hyperliquidClient := true }

/-- A concrete empty state: no credentials, no strategies, no client. -/
def st0 : ServerState :=
  { userCredentials := initialCredentials, strategies := [],
    hyperliquidClient := false }

/-- Concrete well-formed create-strategy arguments. -/
def cexArgs : CreateStrategyArgs :=
  { name := some "alpha", description := some "momentum", config := some "cfg" }

/-- A concrete exchange oracle whose calls all succeed. -/
def okOracle : ExchangeOracle := { connect := .ok (), placeOrder := .ok "ok" }

/-- A concrete account oracle whose calls all succeed with empty data. -/
def okAccountOracle : AccountOracle :=
  { connect := .ok (), perp := .ok "perp", spot := .ok [], ctxs := .ok [] }

/-- A concrete account oracle where only the spot fetch fails. -/
def spotFailOracle : AccountOracle :=
  { connect := .ok (), perp := .ok "perp", spot := .error "spot down",
    ctxs := .ok [] }

/-- A concrete account oracle where the perpetuals fetch fails while the
spot fetch would succeed with a nonempty balance list. -/
def perpFailOracle : AccountOracle :=
  { connect := .ok (), perp := .error "perp down",
    spot := .ok [{ coin := "ABC-SPOT", total := 10 }],
    ctxs := .ok [{ coin := "ABC-SPOT", markPx := 3 }] }

/-- Concrete arguments of a limit order with no price field. -/
def limitNoPriceArgs : PlaceOrderArgs :=
  { symbol := some "BTC-PERP", side := some "buy", size := some 1,
    price := none, orderType := some "limit", reduceOnly := none }

/-- Concrete arguments of a market order with a negative size. -/
def negativeSizeArgs : PlaceOrderArgs :=
  { symbol := some "BTC-PERP", side := some "sell", size := some (-1),
    price := none, orderType := some "market", reduceOnly := none }

/-- Concrete arguments of a market order with size zero. -/
def zeroSizeArgs : PlaceOrderArgs :=
  { symbol := some "BTC-PERP", side := some "sell", size := some 0,
    price := none, orderType := some "market", reduceOnly := none }

/-- Helper lemmas about the JS object model. -/
theorem objGet_objSet_self {α : Type} (m : List (String × α)) (k : String)
    (v : α) : objGet (objSet m k v) k = some v := by
  induction m with
  | nil => simp [objSet, objGet]
  | cons p rest ih =>
      obtain ⟨k1, v1⟩ := p
      by_cases h : k1 = k
      · simp [objSet, objGet, h]
      · simp [objSet, objGet, h, ih]

/-- Writing one key leaves lookups of other keys unchanged. -/
theorem objGet_objSet_of_ne {α : Type} (m : List (String × α)) (k k1 : String)
    (v : α) (h : k ≠ k1) : objGet (objSet m k v) k1 = objGet m k1 := by
  induction m with
  | nil => simp [objSet, objGet, h]
  | cons p rest ih =>
      obtain ⟨k2, v2⟩ := p
      by_cases h2 : k2 = k
      · subst h2
        simp [objSet, objGet, h]
      · simp [objSet, objGet, h2, ih]

/-- Writing a fresh key grows the object by exactly one entry. -/
theorem objSet_length_of_fresh {α : Type} (m : List (String × α)) (k : String)
    (v : α) (h : objGet m k = none) : (objSet m k v).length = m.length + 1 := by
  induction m with
  | nil => simp [objSet]
  | cons p rest ih =>
      obtain ⟨k1, v1⟩ := p
      by_cases h1 : k1 = k
      · simp [objGet, h1] at h
      · simp [objGet, h1] at h
        simp [objSet, h1, ih h]

/-- No strategy resource URI equals the account resource URI. -/
theorem strategyUri_ne_account (s : String) :
    strategyUriBase ++ s ≠ "hyperliquid://account" := by
  intro h
  have h2 : (strategyUriBase ++ s).data.length =
      ("hyperliquid://account" : String).data.length :=
    congrArg (fun x => x.data.length) h
  rw [String.data_append, List.length_append] at h2
  have hbase : strategyUriBase.data.length = 23 := rfl
  have hacct : ("hyperliquid://account" : String).data.length = 21 := rfl
  omega

/-- Every string of the form base-plus-id starts with the base. -/
theorem jsStartsWith_base (s : String) :
    jsStartsWith (strategyUriBase ++ s) strategyUriBase = true := by
  unfold jsStartsWith
  rw [String.data_append, List.take_left]
  exact beq_self_eq_true _

/-- Stripping the base from base-plus-id recovers the id. -/
theorem stripStrategyBase_append (s : String) :
    stripStrategyBase (strategyUriBase ++ s) = s := by
  unfold stripStrategyBase
  rw [String.data_append, List.drop_left]

/-- C1: evaluating the code at a place_order call with orderType limit and
no price field, with a client available, a signing key present, and a
succeeding connect call, shows that the surfaced error is InternalError
(the InvalidParams McpError thrown inside the try block is re-wrapped by
the catch), and that connect() was already called on the external client
before the error was produced. -/
theorem place_order_limit_missing_price_internalError :
    (place_order stAuthed true okOracle limitNoPriceArgs).1 =
      .error ⟨.internalError, "Failed to place order: " ++
        "MCP error -32602: Price is required for limit orders"⟩ ∧
    (place_order stAuthed true okOracle limitNoPriceArgs).2.2 =
      [ClientCall.connect] :=
  ⟨rfl, rfl⟩

/-- C2 counterexample: with a client, a wallet address, a succeeding
connect, a failing perpetuals fetch and a succeeding spot fetch with a
nonempty balance list, the whole account read fails with InternalError:
the perpetual-section failure aborts the spot section instead of being
embedded as a per-section marker in a successful response. -/
theorem readAccount_perp_failure_aborts :
    (readAccountResource stAuthed true perpFailOracle).1 =
      .error ⟨.internalError,
        "Failed to fetch account information: perp down"⟩ :=
  rfl

/-- C2 amended: only the spot-balance fetch failure is handled
independently: it does not abort the perpetuals fetch and the spot section
is embedded as null (not as an error marker) in an otherwise successful
response; a perpetuals fetch failure aborts the entire read with
InternalError. -/
theorem readAccount_partial_failure_amended (st : ServerState) (ctorOk : Bool)
    (o1 o2 : AccountOracle) (p m2 : String)
    (hcl : st.hyperliquidClient = true)
    (hwa : strFalsy st.userCredentials.walletAddress = false)
    (hc1 : o1.connect = .ok ()) (hp1 : o1.perp = .ok p)
    (hs1 : ∃ m1, o1.spot = .error m1)
    (hc2 : o2.connect = .ok ()) (hp2 : o2.perp = .error m2) :
    (readAccountResource st ctorOk o1).1 =
      .ok (some
        { perpetuals := p, spot := .null,
          network := if st.userCredentials.testnet then "testnet"
            else "mainnet" }) ∧
    (readAccountResource st ctorOk o2).1 =
      .error ⟨.internalError,
        "Failed to fetch account information: " ++ m2⟩ := by
  obtain ⟨m1, hs1⟩ := hs1
  unfold readAccountResource ensureClient
  simp [hcl, hwa, hc1, hp1, hs1, hc2, hp2]

/-- C2 amended, witness at concrete inputs. -/
theorem readAccount_partial_failure_amended_witness :
    (readAccountResource stAuthed true spotFailOracle).1 =
      .ok (some
        { perpetuals := "perp", spot := .null,
          network := if stAuthed.userCredentials.testnet then "testnet"
            else "mainnet" }) ∧
    (readAccountResource stAuthed true perpFailOracle).1 =
      .error ⟨.internalError,
        "Failed to fetch account information: " ++ "perp down"⟩ :=
  readAccount_partial_failure_amended stAuthed true spotFailOracle
    perpFailOracle ("perp") ("perp down") rfl rfl rfl rfl ⟨"spot down", rfl⟩
    rfl rfl

/-- C3 counterexample: a call whose strategyId is the empty string matches
no existing strategy record, yet the result is the InvalidParams
required-fields error, not the strategy-not-found error. -/
theorem activate_strategy_empty_id_invalidParams :
    objGet st0.strategies ("") = none ∧
    (activate_strategy st0 { strategyId := some "", active := some true }).1 =
      .error ⟨.invalidParams, "StrategyId and active status are required"⟩ ∧
    (activate_strategy st0 { strategyId := some "", active := some true }).1 ≠
      .error ⟨.invalidRequest, "Strategy " ++ "" ++ " not found"⟩ := by
  refine ⟨rfl, rfl, ?_⟩
  intro h
  have h2 := Except.error.inj h
  have h3 := congrArg McpErr.code h2
  exact absurd h3 (by decide)

/-- C3 amended: for every activate_strategy call whose strategyId is
non-empty and matches no existing strategy record, the result is the
strategy-not-found error (surfaced as ErrorCode InvalidRequest) and the
server state, in particular the strategy map, is left completely
unchanged. -/
theorem activate_strategy_nonexistent_notFound (st : ServerState)
    (sid : String) (act : Option Bool) (hne : sid ≠ "")
    (habs : objGet st.strategies sid = none) :
    (activate_strategy st { strategyId := some sid, active := act }).1 =
      .error ⟨.invalidRequest, "Strategy " ++ sid ++ " not found"⟩ ∧
    (activate_strategy st { strategyId := some sid, active := act }).2 = st := by
  have h1 : strFalsy (some sid) = false := by
    simp [strFalsy, hne]
  unfold activate_strategy
  simp [h1, habs]

/-- C3 amended, witness at concrete inputs. -/
theorem activate_strategy_nonexistent_notFound_witness :
    (activate_strategy st0 { strategyId := some "x", active := some true }).1 =
      .error ⟨.invalidRequest, "Strategy " ++ "x" ++ " not found"⟩ ∧
    (activate_strategy st0 { strategyId := some "x", active := some true }).2 =
      st0 :=
  activate_strategy_nonexistent_notFound st0 ("x") (some true) (by decide) rfl

/-- C4 counterexample: two successive create_strategy calls with identical
arguments in the same millisecond and with the same random draw both
succeed, yet the generated ids coincide and the second insert overwrites
the first, leaving a single record instead of two. -/
theorem create_strategy_id_collision :
    mkStrategyId 0 5 = mkStrategyId 0 5 ∧
    ((create_strategy st0 0 5 cexArgs).1).isOk = true ∧
    ((create_strategy (create_strategy st0 0 5 cexArgs).2 0 5 cexArgs).1).isOk
      = true ∧
    ((create_strategy (create_strategy st0 0 5 cexArgs).2 0 5
        cexArgs).2).strategies.length = 1 :=
  ⟨rfl, rfl, rfl, rfl⟩

/-- C4 amended: two successive create_strategy calls with identical
well-formed arguments produce two distinct records, both present in the
strategy map, whenever the generated id strings (timestamp plus random
tie-breaker) differ; when both the timestamp and the tie-breaker coincide
the id repeats and the second record overwrites the first. -/
theorem create_strategy_distinct_records_amended (st : ServerState)
    (a : CreateStrategyArgs) (t1 r1 t2 r2 : Nat)
    (hn : strFalsy a.name = false) (hd : strFalsy a.description = false)
    (hc : strFalsy a.config = false)
    (hid : mkStrategyId t1 r1 ≠ mkStrategyId t2 r2) :
    objGet ((create_strategy (create_strategy st t1 r1 a).2 t2 r2
        a).2).strategies (mkStrategyId t1 r1) =
      some
        { id := mkStrategyId t1 r1, name := a.name.getD "",
          description := a.description.getD "", config := a.config.getD "",
          active := false } ∧
    objGet ((create_strategy (create_strategy st t1 r1 a).2 t2 r2
        a).2).strategies (mkStrategyId t2 r2) =
      some
        { id := mkStrategyId t2 r2, name := a.name.getD "",
          description := a.description.getD "", config := a.config.getD "",
          active := false } ∧
    (({ id := mkStrategyId t1 r1, name := a.name.getD "",
         description := a.description.getD "", config := a.config.getD "",
         active := false } : Strategy) ≠
      { id := mkStrategyId t2 r2, name := a.name.getD "",
        description := a.description.getD "", config := a.config.getD "",
        active := false }) := by
  unfold create_strategy
  simp only [hn, hd, hc, Bool.or_self, Bool.false_or, Bool.or_false,
    if_false, Bool.false_eq_true]
  refine ⟨?_, ?_, ?_⟩
  · rw [objGet_objSet_of_ne _ _ _ _ (fun h => hid h.symm)]
    exact objGet_objSet_self _ _ _
  · exact objGet_objSet_self _ _ _
  · intro h
    exact hid (congrArg Strategy.id h)

/-- C4 amended, witness at concrete inputs. -/
theorem create_strategy_distinct_records_amended_witness :
    objGet ((create_strategy (create_strategy st0 0 5 cexArgs).2 0 6
        cexArgs).2).strategies (mkStrategyId 0 5) =
      some
        { id := mkStrategyId 0 5, name := cexArgs.name.getD "",
          description := cexArgs.description.getD "",
          config := cexArgs.config.getD "", active := false } ∧
    objGet ((create_strategy (create_strategy st0 0 5 cexArgs).2 0 6
        cexArgs).2).strategies (mkStrategyId 0 6) =
      some
        { id := mkStrategyId 0 6, name := cexArgs.name.getD "",
          description := cexArgs.description.getD "",
          config := cexArgs.config.getD "", active := false } ∧
    (({ id := mkStrategyId 0 5, name := cexArgs.name.getD "",
         description := cexArgs.description.getD "",
         config := cexArgs.config.getD "", active := false } : Strategy) ≠
      { id := mkStrategyId 0 6, name := cexArgs.name.getD "",
        description := cexArgs.description.getD "",
        config := cexArgs.config.getD "", active := false }) :=
  create_strategy_distinct_records_amended st0 cexArgs 0 5 0 6 rfl rfl rfl
    (by decide)

/-- C5: for every authenticate call in which both the signing key and the
public address are absent, the result is InvalidParams and the whole
server state, in particular the stored credentials, is exactly what it was
before the call. -/
theorem authenticate_missing_both_unchanged (st : ServerState)
    (vk : String → Bool) (ctorOk : Bool) (a : AuthArgs)
    (hpk : a.privateKey = none) (hwa : a.walletAddress = none) :
    (authenticate st vk ctorOk a).1 =
      .error ⟨.invalidParams,
        "Either privateKey or walletAddress must be provided"⟩ ∧
    (authenticate st vk ctorOk a).2 = st := by
  unfold authenticate
  simp [hpk, hwa, strFalsy]

/-- C5, witness at concrete inputs. -/
theorem authenticate_missing_both_unchanged_witness :
    (authenticate stAuthed (fun _ => true) true
      { privateKey := none, walletAddress := none, testnet := some false,
        vaultAddress := none }).1 =
      .error ⟨.invalidParams,
        "Either privateKey or walletAddress must be provided"⟩ ∧
    (authenticate stAuthed (fun _ => true) true
      { privateKey := none, walletAddress := none, testnet := some false,
        vaultAddress := none }).2 = stAuthed :=
  authenticate_missing_both_unchanged stAuthed (fun _ => true) true
    { privateKey := none, walletAddress := none, testnet := some false,
      vaultAddress := none } rfl rfl

/-- C6: in the spot-balance enrichment, when the stable coin has no entry
or a zero entry in the raw price map its adjusted price is 1.0; every
balance whose coin has an adjusted price-map entry p gets usdValue equal
to quantity times p; and in particular quantity 10 at price 5over2 gives
usdValue exactly 25. -/
theorem spot_enrichment_usd_value (ctxs : List AssetCtx) (b : SpotBalance)
    (p : Rat)
    (husdc : buildPriceMap ctxs ("USDC-SPOT") = none ∨
      buildPriceMap ctxs ("USDC-SPOT") = some 0)
    (hp : ensureUsdcPrice (buildPriceMap ctxs) b.coin = some p) :
    ensureUsdcPrice (buildPriceMap ctxs) ("USDC-SPOT") = some 1 ∧
    (enrichBalance (ensureUsdcPrice (buildPriceMap ctxs)) b).usdValue =
      b.total * p ∧
    (b.total = 10 → p = 5 / 2 →
      (enrichBalance (ensureUsdcPrice (buildPriceMap ctxs)) b).usdValue = 25) := by
  refine ⟨?_, ?_, ?_⟩
  · unfold ensureUsdcPrice
    rcases husdc with h | h <;> simp [h]
  · simp [enrichBalance, hp]
  · intro ht hp2
    simp [enrichBalance, hp, ht, hp2]
    norm_num

/-- C6, witness at concrete inputs. -/
theorem spot_enrichment_usd_value_witness :
    ensureUsdcPrice (buildPriceMap [{ coin := "ABC-SPOT", markPx := 5 / 2 }])
      ("USDC-SPOT") = some 1 ∧
    (enrichBalance (ensureUsdcPrice
        (buildPriceMap [{ coin := "ABC-SPOT", markPx := 5 / 2 }]))
      { coin := "ABC-SPOT", total := 10 }).usdValue =
      (({ coin := "ABC-SPOT", total := 10 } : SpotBalance)).total * (5 / 2) ∧
    ((({ coin := "ABC-SPOT", total := 10 } : SpotBalance)).total = 10 →
      (5 / 2 : Rat) = 5 / 2 →
      (enrichBalance (ensureUsdcPrice
          (buildPriceMap [{ coin := "ABC-SPOT", markPx := 5 / 2 }]))
        { coin := "ABC-SPOT", total := 10 }).usdValue = 25) :=
  spot_enrichment_usd_value [{ coin := "ABC-SPOT", markPx := 5 / 2 }]
    { coin := "ABC-SPOT", total := 10 } (5 / 2) (Or.inl rfl) rfl

/-- C7: a strategy created by a successful create_strategy call is
readable through the resource-read path at the URI embedding its generated
id, and the returned record has the creation name, description and config
and an active flag of false. -/
theorem create_strategy_read_roundtrip (st : ServerState) (ctorOk : Bool)
    (o : AccountOracle) (nm ds cfg : String) (t r : Nat)
    (hn : nm ≠ "") (hd : ds ≠ "") (hc : cfg ≠ "") :
    ((create_strategy st t r
      { name := some nm, description := some ds, config := some cfg }).1).isOk
      = true ∧
    (readResource (create_strategy st t r
        { name := some nm, description := some ds, config := some cfg }).2
      ctorOk o (strategyUriBase ++ mkStrategyId t r)).1 =
      .ok (.strategyJson
        { id := mkStrategyId t r, name := nm,
          description := ds, config := cfg, active := false }) := by
  have hn1 : strFalsy (some nm) = false := by simp [strFalsy, hn]
  have hd1 : strFalsy (some ds) = false := by simp [strFalsy, hd]
  have hc1 : strFalsy (some cfg) = false := by simp [strFalsy, hc]
  unfold create_strategy readResource
  simp [hn1, hd1, hc1, strategyUri_ne_account, jsStartsWith_base,
    stripStrategyBase_append, objGet_objSet_self, Except.isOk, Except.toBool]

/-- C7, witness at concrete inputs. -/
theorem create_strategy_read_roundtrip_witness :
    ((create_strategy st0 3 7
      { name := some "alpha", description := some "momentum",
        config := some "cfg" }).1).isOk = true ∧
    (readResource (create_strategy st0 3 7
        { name := some "alpha", description := some "momentum",
          config := some "cfg" }).2
      true okAccountOracle (strategyUriBase ++ mkStrategyId 3 7)).1 =
      .ok (.strategyJson
        { id := mkStrategyId 3 7, name := "alpha",
          description := "momentum", config := "cfg", active := false }) :=
  create_strategy_read_roundtrip st0 true okAccountOracle ("alpha")
    ("momentum") ("cfg") 3 7 (by decide) (by decide) (by decide)

/-- C8 counterexample: from a state with no credentials and one strategy
created at timestamp 0 with draw 5, a second successful create_strategy
call colliding on both timestamp and draw leaves the resource list at the
same length instead of growing it by one. -/
theorem listResources_growth_collision :
    ((create_strategy (create_strategy st0 0 5 cexArgs).2 0 5 cexArgs).1).isOk
      = true ∧
    (listResources (create_strategy (create_strategy st0 0 5 cexArgs).2 0 5
        cexArgs).2).length =
      (listResources (create_strategy st0 0 5 cexArgs).2).length :=
  ⟨rfl, rfl⟩

/-- C8 amended: with neither a signing key nor an address stored, the
resource list is exactly one strategy descriptor per record and contains
no account entry; and a successful create_strategy call whose generated id
is not already present grows the list by exactly one entry. -/
theorem listResources_no_creds_amended (st : ServerState)
    (a : CreateStrategyArgs) (t r : Nat)
    (hpk : st.userCredentials.privateKey = none)
    (hwa : st.userCredentials.walletAddress = none)
    (hn : strFalsy a.name = false) (hd : strFalsy a.description = false)
    (hc : strFalsy a.config = false)
    (hfresh : objGet st.strategies (mkStrategyId t r) = none) :
    listResources st = st.strategies.map strategyResource ∧
    (∀ res ∈ listResources st, res.uri ≠ "hyperliquid://account") ∧
    (listResources (create_strategy st t r a).2).length =
      (listResources st).length + 1 := by
  have hlist : listResources st = st.strategies.map strategyResource := by
    unfold listResources
    simp [hpk, hwa, strFalsy]
  refine ⟨hlist, ?_, ?_⟩
  · intro res hres
    rw [hlist, List.mem_map] at hres
    obtain ⟨pp, hpp, hres⟩ := hres
    subst hres
    exact strategyUri_ne_account pp.1
  · unfold create_strategy
    simp only [hn, hd, hc, Bool.or_self, Bool.false_or, Bool.or_false,
      if_false, Bool.false_eq_true]
    unfold listResources
    simp [hpk, hwa, strFalsy, objSet_length_of_fresh _ _ _ hfresh]

/-- C8 amended, witness at concrete inputs. -/
theorem listResources_no_creds_amended_witness :
    listResources st0 = st0.strategies.map strategyResource ∧
    (∀ res ∈ listResources st0, res.uri ≠ "hyperliquid://account") ∧
    (listResources (create_strategy st0 0 5 cexArgs).2).length =
      (listResources st0).length + 1 :=
  listResources_no_creds_amended st0 cexArgs 0 5 rfl rfl rfl rfl rfl rfl

/-- C9 counterexample: a place_order call with a negative size passes the
truthiness validation, the order is submitted to the external client with
the negative size, and the result is not InvalidParams. -/
theorem place_order_negative_size_submitted :
    numFalsy negativeSizeArgs.size = false ∧
    (place_order stAuthed true okOracle negativeSizeArgs).1 = .ok "ok" ∧
    (place_order stAuthed true okOracle negativeSizeArgs).2.2 =
      [ClientCall.connect, ClientCall.placeOrder
        { coin := "BTC-PERP", is_buy := false, sz := -1,
          reduce_only := false, order_type := .market }] :=
  ⟨rfl, rfl, rfl⟩

/-- C9 amended: for every place_order call whose size is zero or absent
(falsy after the Number coercion), the result is InvalidParams and no call
reaches the external client; negative sizes are not rejected. -/
theorem place_order_falsy_size_invalidParams (st : ServerState)
    (ctorOk : Bool) (o : ExchangeOracle) (a : PlaceOrderArgs)
    (hsz : numFalsy a.size = true) :
    (place_order st ctorOk o a).1 =
      .error ⟨.invalidParams,
        "Symbol, side, size, and orderType are required"⟩ ∧
    (place_order st ctorOk o a).2.2 = [] := by
  unfold place_order
  simp [hsz]

/-- C9 amended, witness at concrete inputs. -/
theorem place_order_falsy_size_invalidParams_witness :
    (place_order stAuthed true okOracle zeroSizeArgs).1 =
      .error ⟨.invalidParams,
        "Symbol, side, size, and orderType are required"⟩ ∧
    (place_order stAuthed true okOracle zeroSizeArgs).2.2 = [] :=
  place_order_falsy_size_invalidParams stAuthed true okOracle zeroSizeArgs rfl

/-- C10: a balance whose coin has no entry in the adjusted price map is
assigned price 0 and usdValue 0, no error is possible in the enrichment,
and the balance still appears in the enriched output (the map preserves
membership and length). -/
theorem spot_enrichment_missing_price_zero (ctxs : List AssetCtx)
    (bs : List SpotBalance) (b : SpotBalance) (hb : b ∈ bs)
    (habs : ensureUsdcPrice (buildPriceMap ctxs) b.coin = none) :
    (enrichBalance (ensureUsdcPrice (buildPriceMap ctxs)) b).price = 0 ∧
    (enrichBalance (ensureUsdcPrice (buildPriceMap ctxs)) b).usdValue = 0 ∧
    enrichBalance (ensureUsdcPrice (buildPriceMap ctxs)) b ∈
      enrichBalances ctxs bs ∧
    (enrichBalances ctxs bs).length = bs.length := by
  refine ⟨?_, ?_, ?_, ?_⟩
  · simp [enrichBalance, habs]
  · simp [enrichBalance, habs]
  · exact List.mem_map_of_mem _ hb
  · simp [enrichBalances]

/-- C10, witness at concrete inputs. -/
theorem spot_enrichment_missing_price_zero_witness :
    (enrichBalance (ensureUsdcPrice (buildPriceMap []))
      { coin := "XYZ-SPOT", total := 7 }).price = 0 ∧
    (enrichBalance (ensureUsdcPrice (buildPriceMap []))
      { coin := "XYZ-SPOT", total := 7 }).usdValue = 0 ∧
    enrichBalance (ensureUsdcPrice (buildPriceMap []))
      { coin := "XYZ-SPOT", total := 7 } ∈
      enrichBalances [] [{ coin := "XYZ-SPOT", total := 7 }] ∧
    (enrichBalances [] [{ coin := "XYZ-SPOT", total := 7 }]).length =
      [({ coin := "XYZ-SPOT", total := 7 } : SpotBalance)].length :=
  spot_enrichment_missing_price_zero [] [{ coin := "XYZ-SPOT", total := 7 }]
    { coin := "XYZ-SPOT", total := 7 } (by simp) rfl

end HL
